import Mathlib

/-!
Shallow embedding of the authentication/session core of the `mandarin`
language-learning web API (`src/auth.rs`, `src/handlers.rs`, `src/models.rs`,
`src/errors.rs`), together with theorems settling the frozen claims about it.

External effects are made explicit parameters:
* the backing Postgres store becomes an explicit `Store` value threaded
  through each function;
* `Utc::now()` becomes a `now : Int` timestamp parameter;
* `env::var("JWT_SECRET")` becomes a `jwtSecret : Option String` parameter
  (`none` models an unset variable, in which case the Rust `.expect` panics);
* the 32 random bytes drawn for a refresh token become an explicit
  `freshToken : String` parameter (their hex encoding).

The external crates `jsonwebtoken` and `bcrypt` are modelled symbolically:
tokens and hashes are structured values recording exactly what the crates
record, with the cryptographic digest idealized as collision-free.
-/

namespace Mandarin

/-- `user_role_enum` from `models.rs`: `UserRole { User, Admin }`. -/
inductive UserRole where
  | user
  | admin
deriving DecidableEq, Repr

/-- serde `Serialize` of a unit variant is the variant name; the derive on
`UserRole` carries no serde rename attribute, so the names are as written. -/
def UserRole.serdeName : UserRole → String
  | .user => "User"
  | .admin => "Admin"

/-- Symbolic model of the string produced by `bcrypt::hash` and consumed by
`bcrypt::verify`: either a well-formed bcrypt hash recording the salt and the
digest, or a malformed string.  The digest of password `p` is idealized as `p`
itself, the standard collision-free symbolic idealization of a one-way hash
(in reality collisions exist but are computationally unreachable). -/
inductive BcryptString where
  | wellFormed (salt : String) (digest : String)
  | malformed (raw : String)
deriving DecidableEq, Repr

/-- Model of `bcrypt::hash(password, DEFAULT_COST)`: salts with fresh
randomness `salt` and stores the (idealized) digest of the password. -/
def bcryptHash (salt : String) (password : String) : BcryptString :=
  .wellFormed salt password

/-- Model of `bcrypt::verify(password, hash)`: errors on a malformed stored
hash; on a well-formed hash, recomputes the digest and compares, returning
the boolean outcome (a mismatch is `Ok(false)`, not an error). -/
def bcryptVerify (password : String) (hash : BcryptString) : Except String Bool :=
  match hash with
  | .malformed _ => .error "InvalidHash"
  | .wellFormed _ digest => .ok (digest == password)

/-- `User` from `models.rs` (the fields relevant to the auth core). -/
structure User where
  id : Int
  nickname : String
  password_hash : BcryptString
  role : UserRole
deriving DecidableEq, Repr

/-- `Claims` from `models.rs`: the JWT payload.  `exp` and `iat` are `usize`
in the source, hence `Nat` here. -/
structure Claims where
  exp : Nat
  iat : Nat
  user_id : Int
  role : UserRole
deriving DecidableEq, Repr

/-- Symbolic model of a JWT string: either a token correctly signed with some
secret over some payload (`jsonwebtoken::encode` output), or a string that
does not verify as any well-signed token (malformed, or payload-tampered,
which breaks the MAC). -/
inductive Token where
  | signed (claims : Claims) (secret : String)
  | malformed (raw : String)
deriving DecidableEq, Repr

/-- `AuthResponse` from `models.rs`. -/
structure AuthResponse where
  access_token : Token
  refresh_token : String
deriving DecidableEq, Repr

/-- A row of the `refresh_sessions` table. -/
structure Session where
  user_id : Int
  refresh_token : String
  expires_at : Int
deriving DecidableEq, Repr

/-- The backing store: the `users` and `refresh_sessions` tables. -/
structure Store where
  users : List User
  sessions : List Session
deriving DecidableEq, Repr

/-- `AppError` from `errors.rs`: a status code and a message. -/
structure AppError where
  status_code : Nat
  message : String
deriving DecidableEq, Repr

/-- `AppError::new`. -/
def AppError.new (status_code : Nat) (message : String) : AppError :=
  ⟨status_code, message⟩

def UNAUTHORIZED : Nat := 401
def INTERNAL_SERVER_ERROR : Nat := 500
def FORBIDDEN : Nat := 403

/-- `impl From<sqlx::Error> for AppError` in `errors.rs`: every database
error (including `RowNotFound` from `fetch_one`) becomes a 500 with a generic
message. -/
def AppError.fromSqlx : AppError :=
  AppError.new INTERNAL_SERVER_ERROR "Произошла ошибка на сервере"

/-- Outcome of a request-handling function: an `Ok` value, a typed
`AppError` response, or a process panic (from `.expect` on a missing
environment variable). -/
inductive Outcome (α : Type) where
  | ok (a : α)
  | err (e : AppError)
  | panic
deriving DecidableEq, Repr

-- --- Константы для времени жизни токенов --- (auth.rs)
def ACCESS_TOKEN_EXPIRATION_MINUTES : Int := 15
def REFRESH_TOKEN_EXPIRATION_DAYS : Int := 30

/-- The `as usize` cast of an `i64` timestamp in `auth.rs`
(`now.timestamp() as usize`): wraps modulo 2^64. -/
def intToUsize (i : Int) : Nat :=
  (i % (2 : Int) ^ 64).toNat

/-- `hash_password` from `auth.rs`: bcrypt-hash, mapping a bcrypt error to a
500 `AppError`.  The model's `bcryptHash` does not fail (RNG failure is not
modelled), so this always succeeds. -/
def hash_password (salt : String) (password : String) : Except AppError BcryptString :=
  .ok (bcryptHash salt password)

/-- `verify_password` from `auth.rs`: `bcrypt::verify`, mapping a bcrypt
error to a 500 `AppError` and passing the boolean through. -/
def verify_password (password : String) (hash : BcryptString) : Except AppError Bool :=
  match bcryptVerify password hash with
  | .error _ => .error (AppError.new INTERNAL_SERVER_ERROR "Ошибка при проверке пароля")
  | .ok b => .ok b

/-- `SELECT * FROM users WHERE id = $1` with `fetch_one`: the first matching
row, or `none` (which `fetch_one` surfaces as `sqlx::Error::RowNotFound`). -/
def findUserById (st : Store) (user_id : Int) : Option User :=
  st.users.find? (fun u => u.id == user_id)

/-- `SELECT user_id, expires_at FROM refresh_sessions WHERE refresh_token = $1`
with `fetch_optional`: the first matching row, if any. -/
def findSession (st : Store) (token : String) : Option Session :=
  st.sessions.find? (fun s => s.refresh_token == token)

/-- `DELETE FROM refresh_sessions WHERE refresh_token = $1`: removes every
row whose token matches. -/
def deleteSession (st : Store) (token : String) : Store :=
  { st with sessions := st.sessions.filter (fun s => !(s.refresh_token == token)) }

/-- `INSERT INTO refresh_sessions (user_id, refresh_token, expires_at)`. -/
def insertSession (st : Store) (s : Session) : Store :=
  { st with sessions := st.sessions ++ [s] }

/-- `generate_tokens` from `auth.rs`.  Loads the full user row (errors as
the sqlx conversion does when absent), builds the access claims with
`iat = now` and `exp = now + 15 minutes`, reads `JWT_SECRET` from the
environment (`.expect` panics when unset), signs the access token, and
inserts a refresh session expiring in 30 days with the freshly drawn
`freshToken`.  Returns the outcome together with the resulting store. -/
def generate_tokens (user_id : Int) (st : Store) (now : Int)
    (jwtSecret : Option String) (freshToken : String) :
    Outcome AuthResponse × Store :=
  match findUserById st user_id with
  | none => (.err AppError.fromSqlx, st)
  | some user =>
    let access_token_exp : Int := now + 60 * ACCESS_TOKEN_EXPIRATION_MINUTES
    let access_claims : Claims :=
      { exp := intToUsize access_token_exp
        iat := intToUsize now
        user_id := user_id
        role := user.role }
    match jwtSecret with
    | none => (.panic, st)
    | some secret =>
      let access_token : Token := .signed access_claims secret
      let refresh_token_exp : Int := now + 86400 * REFRESH_TOKEN_EXPIRATION_DAYS
      let st' := insertSession st ⟨user_id, freshToken, refresh_token_exp⟩
      (.ok { access_token := access_token, refresh_token := freshToken }, st')

/-- `refresh_access_token` from `auth.rs`: look up the session by exact token
match (404-equivalent 401 when absent), delete-and-reject when expired
(strictly: `Utc::now() > expires_at`), otherwise delete the row
unconditionally and mint a fresh pair via `generate_tokens`. -/
def refresh_access_token (refresh_token : String) (st : Store) (now : Int)
    (jwtSecret : Option String) (freshToken : String) :
    Outcome AuthResponse × Store :=
  match findSession st refresh_token with
  | none => (.err (AppError.new UNAUTHORIZED "Невалидный refresh токен"), st)
  | some session =>
    if now > session.expires_at then
      (.err (AppError.new UNAUTHORIZED "Сессия истекла"), deleteSession st refresh_token)
    else
      generate_tokens session.user_id (deleteSession st refresh_token) now jwtSecret freshToken

/-- Model of `jsonwebtoken::decode` with `Validation::default()`: rejects a
token that is malformed or signed with a different secret; validates `exp`
with the crate's default leeway of 60 seconds (`ExpiredSignature` exactly
when `exp < now - leeway`, in the crate's `u64` arithmetic, hence truncated
subtraction here). -/
def jwtDecode (tok : Token) (secret : String) (now : Nat) : Except String Claims :=
  match tok with
  | .malformed _ => .error "InvalidToken"
  | .signed claims s =>
    if s = secret then
      if claims.exp < now - 60 then .error "ExpiredSignature"
      else .ok claims
    else .error "InvalidSignature"

/-- `impl FromRequestParts for Claims` in `auth.rs`: 401 when the bearer
header is missing; then `env::var("JWT_SECRET").expect(..)` (panic when
unset); then `jsonwebtoken::decode`, mapping any decode error to a 401 with
the error interpolated into the message. -/
def from_request_parts (bearer : Option Token) (jwtSecret : Option String)
    (now : Nat) : Outcome Claims :=
  match bearer with
  | none => .err (AppError.new UNAUTHORIZED "Требуется токен авторизации")
  | some tok =>
    match jwtSecret with
    | none => .panic
    | some secret =>
      match jwtDecode tok secret now with
      | .error e => .err (AppError.new UNAUTHORIZED ("Невалидный токен: " ++ e))
      | .ok claims => .ok claims

/-- `LoginPayload` from `models.rs`. -/
structure LoginPayload where
  nickname : String
  password : String
deriving DecidableEq, Repr

/-- `SELECT * FROM users WHERE nickname = $1` with `fetch_optional`. -/
def findUserByNickname (st : Store) (nickname : String) : Option User :=
  st.users.find? (fun u => u.nickname == nickname)

/-- `login_handler` from `handlers.rs`: 401 with one fixed message both when
the nickname is unknown and when the password does not verify; otherwise
mint a token pair for the user. -/
def login_handler (payload : LoginPayload) (st : Store) (now : Int)
    (jwtSecret : Option String) (freshToken : String) :
    Outcome AuthResponse × Store :=
  match findUserByNickname st payload.nickname with
  | none => (.err (AppError.new UNAUTHORIZED "Неверный никнейм или пароль"), st)
  | some user =>
    match verify_password payload.password user.password_hash with
    | .error e => (.err e, st)
    | .ok ok =>
      if ok then
        generate_tokens user.id st now jwtSecret freshToken
      else
        (.err (AppError.new UNAUTHORIZED "Неверный никнейм или пароль"), st)

/-- A JSON scalar, enough to model the serde output of `User`. -/
inductive SJson where
  | num (n : Int)
  | str (s : String)
deriving DecidableEq, Repr

/-- The serde `Serialize` derive for `User` in `models.rs`: fields in
declaration order, with `password_hash` omitted because it carries
`#[serde(skip_serializing)]`. -/
def serializeUser (u : User) : List (String × SJson) :=
  [("id", .num u.id), ("nickname", .str u.nickname),
   ("role", .str u.role.serdeName)]

/-! ## Helper lemmas -/

/-- Deleting a session leaves the `users` table unchanged. -/
theorem findUserById_deleteSession (st : Store) (tok : String) (user_id : Int) :
    findUserById (deleteSession st tok) user_id = findUserById st user_id := rfl

/-- After `DELETE FROM refresh_sessions WHERE refresh_token = tok`, no row
with token `tok` remains. -/
theorem findSession_deleteSession (st : Store) (tok : String) :
    findSession (deleteSession st tok) tok = none := by
  simp [findSession, deleteSession, List.find?_eq_none, List.mem_filter]

/-- After deleting token `tok` and inserting a row carrying a different
token, no row with token `tok` is present. -/
theorem findSession_delete_insert (st : Store) (tok : String) (s : Session)
    (h : s.refresh_token ≠ tok) :
    findSession (insertSession (deleteSession st tok) s) tok = none := by
  simp [findSession, insertSession, deleteSession, List.find?_eq_none,
    List.mem_append, List.mem_filter]
  exact h

/-- `intToUsize` is the identity on in-range non-negative timestamps. -/
theorem intToUsize_eq_toNat (i : Int) (h0 : 0 ≤ i) (h1 : i < 2 ^ 64) :
    intToUsize i = i.toNat := by
  unfold intToUsize
  rw [Int.emod_eq_of_lt h0 h1]

/-! ## Claims -/

/-- C6: Credential-hasher round trip.  For all passwords `p`,
`verify_password p (hash p)` returns `Ok true`; for `p₁ ≠ p₂`,
`verify_password p₂ (hash p₁)` returns `Ok false` (a mismatch is the value
`false`, never an error); and `verify_password` errors only on a malformed
stored hash. -/
theorem C6_credential_hasher_round_trip :
    (∀ p salt, verify_password p (bcryptHash salt p) = .ok true)
    ∧ (∀ p₁ p₂ salt, p₁ ≠ p₂ → verify_password p₂ (bcryptHash salt p₁) = .ok false)
    ∧ (∀ p h e, verify_password p h = .error e → ∃ raw, h = .malformed raw) := by
  refine ⟨fun p salt => by simp [verify_password, bcryptVerify, bcryptHash],
    fun p₁ p₂ salt hne => by
      simp [verify_password, bcryptVerify, bcryptHash]
      exact hne,
    fun p h e herr => ?_⟩
  cases h with
  | wellFormed salt digest => simp [verify_password, bcryptVerify] at herr
  | malformed raw => exact ⟨raw, rfl⟩

/-- Witness for C6 at concrete passwords. -/
theorem C6_witness :
    verify_password "pw123" (bcryptHash "somesalt" "pw123") = .ok true
    ∧ verify_password "wrong" (bcryptHash "somesalt" "pw123") = .ok false :=
  ⟨C6_credential_hasher_round_trip.1 "pw123" "somesalt",
   C6_credential_hasher_round_trip.2.1 "pw123" "wrong" "somesalt" (by decide)⟩

/-- C7: Unknown refresh token.  When no session row matches the token,
`refresh_access_token` fails with `Unauthorized("Невалидный refresh токен")`
and the store is returned unchanged (no row deleted, none inserted). -/
theorem C7_unknown_refresh_token (tok : String) (st : Store) (now : Int)
    (jwtSecret : Option String) (freshToken : String)
    (h : findSession st tok = none) :
    refresh_access_token tok st now jwtSecret freshToken
      = (.err (AppError.new UNAUTHORIZED "Невалидный refresh токен"), st) := by
  simp [refresh_access_token, h]

/-- Witness for C7: a concrete store holding one session under a different
token string. -/
theorem C7_witness :
    refresh_access_token "unknown"
        ⟨[⟨1, "alice", bcryptHash "somesalt" "pw123", .user⟩], [⟨1, "tok", 100⟩]⟩
        50 (some "secret") "fresh"
      = (.err (AppError.new UNAUTHORIZED "Невалидный refresh токен"),
         ⟨[⟨1, "alice", bcryptHash "somesalt" "pw123", .user⟩], [⟨1, "tok", 100⟩]⟩) :=
  C7_unknown_refresh_token "unknown" _ 50 (some "secret") "fresh" (by decide)

/-- C9: Password-hash confidentiality at the interface.  The serde output of
a `User` never contains a `password_hash` field, and two `User` values that
differ only in `password_hash` serialize identically. -/
theorem C9_password_hash_confidentiality (u₁ u₂ : User)
    (hid : u₁.id = u₂.id) (hnick : u₁.nickname = u₂.nickname)
    (hrole : u₁.role = u₂.role) :
    serializeUser u₁ = serializeUser u₂
    ∧ ∀ kv ∈ serializeUser u₁, kv.1 ≠ "password_hash" := by
  constructor
  · simp [serializeUser, hid, hnick, hrole]
  · intro kv hkv
    simp only [serializeUser, List.mem_cons, List.not_mem_nil, or_false] at hkv
    rcases hkv with h | h | h <;> subst h <;> simp

/-- Witness for C9: two users equal except for the stored hash. -/
theorem C9_witness :
    serializeUser ⟨1, "alice", bcryptHash "somesalt" "pw123", .user⟩
      = serializeUser ⟨1, "alice", .malformed "other", .user⟩
    ∧ ∀ kv ∈ serializeUser ⟨1, "alice", bcryptHash "somesalt" "pw123", .user⟩,
        kv.1 ≠ "password_hash" :=
  C9_password_hash_confidentiality
    ⟨1, "alice", bcryptHash "somesalt" "pw123", .user⟩
    ⟨1, "alice", .malformed "other", .user⟩ rfl rfl rfl

/-- C1: Single-use refresh rotation.  (a) Once no session row for a token is
in the store (it was deleted by a successful refresh or by logout), a call to
`refresh_access_token` with that token fails with Unauthorized and leaves the
store unchanged.  (b) After a successful `refresh_access_token tok`, a second
sequential call with the same original token fails with Unauthorized — given
that the freshly drawn replacement token differs from the consumed one (a
collision of the 256-bit random token with the old string is the only way to
escape this, hence the freshness hypothesis). -/
theorem C1_single_use_rotation (tok : String) :
    (∀ st now jwtSecret freshToken, findSession st tok = none →
      refresh_access_token tok st now jwtSecret freshToken
        = (.err (AppError.new UNAUTHORIZED "Невалидный refresh токен"), st))
    ∧ (∀ st now jwtSecret freshToken resp st' now' jwtSecret' freshToken',
        freshToken ≠ tok →
        refresh_access_token tok st now jwtSecret freshToken = (.ok resp, st') →
        (refresh_access_token tok st' now' jwtSecret' freshToken').1
          = .err (AppError.new UNAUTHORIZED "Невалидный refresh токен")) := by
  constructor
  · intro st now jwtSecret freshToken h
    simp [refresh_access_token, h]
  · intro st now jwtSecret freshToken resp st' now' jwtSecret' freshToken' hne h
    have hst' : findSession st' tok = none := by
      unfold refresh_access_token at h
      cases hfind : findSession st tok with
      | none => simp [hfind] at h
      | some session =>
        rw [hfind] at h
        simp only at h
        by_cases hexp : now > session.expires_at
        · rw [if_pos hexp] at h
          simp at h
        · rw [if_neg hexp] at h
          unfold generate_tokens at h
          cases huser : findUserById (deleteSession st tok) session.user_id with
          | none => rw [huser] at h; simp at h
          | some user =>
            rw [huser] at h
            cases jwtSecret with
            | none => simp at h
            | some secret =>
              simp only [Prod.mk.injEq] at h
              rw [← h.2]
              exact findSession_delete_insert st tok _ hne
    simp [refresh_access_token, hst']

/-- Witness for C1 at a concrete store: refresh succeeds once and the replay
is rejected. -/
theorem C1_witness :
    (refresh_access_token "tok"
        ⟨[⟨1, "alice", bcryptHash "somesalt" "pw123", .user⟩],
         [⟨1, "tok", 2592000⟩]⟩
        50 (some "secret") "freshtok").2
      = ⟨[⟨1, "alice", bcryptHash "somesalt" "pw123", .user⟩],
         [⟨1, "freshtok", 2592050⟩]⟩
    ∧ (refresh_access_token "tok"
        ⟨[⟨1, "alice", bcryptHash "somesalt" "pw123", .user⟩],
         [⟨1, "freshtok", 2592050⟩]⟩
        60 (some "secret") "freshtok2").1
      = .err (AppError.new UNAUTHORIZED "Невалидный refresh токен") := by
  refine ⟨by decide, ?_⟩
  exact (C1_single_use_rotation "tok").2
    ⟨[⟨1, "alice", bcryptHash "somesalt" "pw123", .user⟩], [⟨1, "tok", 2592000⟩]⟩
    50 (some "secret") "freshtok"
    ⟨.signed ⟨950, 50, 1, .user⟩ "secret", "freshtok"⟩
    ⟨[⟨1, "alice", bcryptHash "somesalt" "pw123", .user⟩], [⟨1, "freshtok", 2592050⟩]⟩
    60 (some "secret") "freshtok2" (by decide) (by decide)

/-- C2 counterexample: the claim says refresh "called at or after T+30d
fails", but with a stored session whose `expires_at` is timestamp 100,
`refresh_access_token` called at exactly `now = 100` succeeds — the source
checks `Utc::now() > expires_at`, which is strict. -/
theorem C2_counterexample :
    (refresh_access_token "tok"
        ⟨[⟨1, "alice", bcryptHash "somesalt" "pw123", .user⟩], [⟨1, "tok", 100⟩]⟩
        100 (some "secret") "freshtok").1
      = .ok ⟨.signed ⟨1000, 100, 1, .user⟩ "secret", "freshtok"⟩ := by
  decide

/-- C2 (amended): for a stored session, `refresh_access_token` succeeds when
called at or before `expires_at` (given the owning user exists and the
secret is set), and fails with `Unauthorized("Сессия истекла")`, deleting the
session row, exactly when called strictly after `expires_at`. -/
theorem C2_refresh_expiry_boundary (tok : String) (st : Store)
    (session : Session) (now : Int) (secret freshToken : String) (user : User)
    (hfind : findSession st tok = some session)
    (huser : findUserById st session.user_id = some user) :
    (now ≤ session.expires_at →
      refresh_access_token tok st now (some secret) freshToken
        = (.ok ⟨.signed ⟨intToUsize (now + 60 * ACCESS_TOKEN_EXPIRATION_MINUTES),
                         intToUsize now, session.user_id, user.role⟩ secret,
                freshToken⟩,
           insertSession (deleteSession st tok)
             ⟨session.user_id, freshToken,
              now + 86400 * REFRESH_TOKEN_EXPIRATION_DAYS⟩))
    ∧ (session.expires_at < now →
      refresh_access_token tok st now (some secret) freshToken
        = (.err (AppError.new UNAUTHORIZED "Сессия истекла"),
           deleteSession st tok)) := by
  constructor
  · intro hle
    unfold refresh_access_token
    rw [hfind]
    simp only
    rw [if_neg (not_lt.mpr hle)]
    unfold generate_tokens
    rw [findUserById_deleteSession, huser]
  · intro hlt
    unfold refresh_access_token
    rw [hfind]
    simp only
    rw [if_pos hlt]

/-- Witness for C2 at a concrete store, exercising both the in-date and the
expired branch. -/
theorem C2_witness :
    refresh_access_token "tok"
        ⟨[⟨1, "alice", bcryptHash "somesalt" "pw123", .user⟩], [⟨1, "tok", 100⟩]⟩
        40 (some "secret") "freshtok"
      = (.ok ⟨.signed ⟨940, 40, 1, .user⟩ "secret", "freshtok"⟩,
         ⟨[⟨1, "alice", bcryptHash "somesalt" "pw123", .user⟩],
          [⟨1, "freshtok", 2592040⟩]⟩)
    ∧ refresh_access_token "tok"
        ⟨[⟨1, "alice", bcryptHash "somesalt" "pw123", .user⟩], [⟨1, "tok", 100⟩]⟩
        101 (some "secret") "freshtok"
      = (.err (AppError.new UNAUTHORIZED "Сессия истекла"),
         ⟨[⟨1, "alice", bcryptHash "somesalt" "pw123", .user⟩], []⟩) := by
  have h := C2_refresh_expiry_boundary "tok"
    ⟨[⟨1, "alice", bcryptHash "somesalt" "pw123", .user⟩], [⟨1, "tok", 100⟩]⟩
    ⟨1, "tok", 100⟩ 40 "secret" "freshtok"
    ⟨1, "alice", bcryptHash "somesalt" "pw123", .user⟩ (by decide) (by decide)
  have h' := C2_refresh_expiry_boundary "tok"
    ⟨[⟨1, "alice", bcryptHash "somesalt" "pw123", .user⟩], [⟨1, "tok", 100⟩]⟩
    ⟨1, "tok", 100⟩ 101 "secret" "freshtok"
    ⟨1, "alice", bcryptHash "somesalt" "pw123", .user⟩ (by decide) (by decide)
  refine ⟨?_, ?_⟩
  · have := h.1 (by decide)
    rw [this]
    decide
  · have := h'.2 (by decide)
    rw [this]
    decide

/-- C3: Access-token claims content.  Token issuance (the `generate_tokens`
path, reached from both login and refresh) for an existing user produces an
access token that decodes (under the same secret, at issuance time) to
claims with `user_id` equal to the authenticated user's id, `role` equal to
the role freshly loaded from the store at issuance time, `iat` equal to the
issuance time, and `exp = iat + 15 minutes` (for epoch-plausible
timestamps, i.e. `0 ≤ now` within the `i64` range, so the `as usize` cast
does not wrap). -/
theorem C3_access_token_claims (user_id : Int) (st : Store) (now : Int)
    (secret freshToken : String) (resp : AuthResponse) (st' : Store)
    (user : User)
    (hnow : 0 ≤ now) (hbound : now + 900 < 2 ^ 63)
    (huser : findUserById st user_id = some user)
    (hgen : generate_tokens user_id st now (some secret) freshToken
      = (.ok resp, st')) :
    ∃ claims : Claims,
      jwtDecode resp.access_token secret (intToUsize now) = .ok claims
      ∧ claims.user_id = user_id
      ∧ claims.role = user.role
      ∧ claims.iat = intToUsize now
      ∧ claims.exp = claims.iat + 900 := by
  unfold generate_tokens at hgen
  rw [huser] at hgen
  simp only [Prod.mk.injEq, Outcome.ok.injEq] at hgen
  obtain ⟨hresp, _⟩ := hgen
  have hconst : (60 : Int) * ACCESS_TOKEN_EXPIRATION_MINUTES = 900 := by
    norm_num [ACCESS_TOKEN_EXPIRATION_MINUTES]
  have h900 : intToUsize (now + 60 * ACCESS_TOKEN_EXPIRATION_MINUTES)
      = intToUsize now + 900 := by
    rw [hconst, intToUsize_eq_toNat now hnow (by omega),
      intToUsize_eq_toNat (now + 900) (by omega) (by omega)]
    omega
  refine ⟨⟨intToUsize (now + 60 * ACCESS_TOKEN_EXPIRATION_MINUTES),
           intToUsize now, user_id, user.role⟩, ?_, rfl, rfl, rfl, h900⟩
  rw [← hresp]
  simp only [jwtDecode, h900]
  rw [if_pos trivial, if_neg (by omega)]

/-- Witness for C3 at a concrete store and issuance time. -/
theorem C3_witness :
    ∃ claims : Claims,
      jwtDecode (Token.signed ⟨1000, 100, 1, .user⟩ "secret") "secret"
          (intToUsize 100) = .ok claims
      ∧ claims.user_id = 1
      ∧ claims.role = UserRole.user
      ∧ claims.iat = intToUsize 100
      ∧ claims.exp = claims.iat + 900 := by
  have h := C3_access_token_claims 1
    ⟨[⟨1, "alice", bcryptHash "somesalt" "pw123", .user⟩], []⟩ 100
    "secret" "freshtok"
    ⟨.signed ⟨1000, 100, 1, .user⟩ "secret", "freshtok"⟩
    ⟨[⟨1, "alice", bcryptHash "somesalt" "pw123", .user⟩],
     [⟨1, "freshtok", 2592100⟩]⟩
    ⟨1, "alice", bcryptHash "somesalt" "pw123", .user⟩
    (by decide) (by decide) (by decide) (by decide)
  exact h

/-- C4 counterexample: the claim says no signing or verification call
observes a missing secret at request time, but with `JWT_SECRET` unset both
the claims extractor (on any presented bearer token) and `generate_tokens`
(for an existing user) hit the missing secret at request time and panic
(`env::var(..).expect(..)`). -/
theorem C4_counterexample :
    from_request_parts (some (.malformed "sometoken")) none 0 = Outcome.panic
    ∧ (generate_tokens 1
        ⟨[⟨1, "alice", bcryptHash "somesalt" "pw123", .user⟩], []⟩
        0 none "freshtok").1 = Outcome.panic :=
  ⟨rfl, rfl⟩

/-- C4 (amended): the signing secret is read from the process environment on
every signing and verification call, not once at startup; when it is unset
at request time, token issuance (for an existing user) and bearer-token
verification both panic at that call instead of failing at process start. -/
theorem C4_secret_read_per_call (st : Store) (user_id : Int) (now : Int)
    (freshToken : String) (tok : Token) (now' : Nat) (user : User)
    (huser : findUserById st user_id = some user) :
    (generate_tokens user_id st now none freshToken).1 = .panic
    ∧ from_request_parts (some tok) none now' = .panic := by
  constructor
  · unfold generate_tokens
    rw [huser]
  · rfl

/-- Witness for C4 at a concrete store and token. -/
theorem C4_witness :
    (generate_tokens 1
        ⟨[⟨1, "alice", bcryptHash "somesalt" "pw123", .user⟩], []⟩
        0 none "freshtok").1 = Outcome.panic
    ∧ from_request_parts (some (.signed ⟨900, 0, 1, .user⟩ "secret")) none 0
      = Outcome.panic :=
  C4_secret_read_per_call
    ⟨[⟨1, "alice", bcryptHash "somesalt" "pw123", .user⟩], []⟩ 1 0 "freshtok"
    (.signed ⟨900, 0, 1, .user⟩ "secret") 0
    ⟨1, "alice", bcryptHash "somesalt" "pw123", .user⟩ (by decide)

/-- C5 counterexample: the claim says a bearer token with `exp` in the past
is rejected, but `jsonwebtoken`'s `Validation::default()` applies a 60-second
leeway: a token with `exp = 70`, presented at `now = 100` (so `exp` is 30
seconds in the past), is accepted and its claims returned. -/
theorem C5_counterexample :
    70 < 100
    ∧ from_request_parts (some (.signed ⟨70, 0, 1, .user⟩ "secret"))
        (some "secret") 100
      = .ok ⟨70, 0, 1, .user⟩ :=
  ⟨by decide, rfl⟩

/-- C5 (amended): with the secret set, the claims extractor rejects with
Unauthorized a missing bearer header, a malformed token, and a token signed
with a different secret (tampering breaks the MAC, so a payload-tampered
token falls in these classes); a token whose `exp` is more than the
60-second default leeway in the past is likewise rejected; every other
well-signed token's decoded claims are returned as the identity. -/
theorem C5_claims_extractor_rejection (secret : String) (now : Nat) :
    from_request_parts none (some secret) now
      = .err (AppError.new UNAUTHORIZED "Требуется токен авторизации")
    ∧ (∀ raw, ∃ m, from_request_parts (some (.malformed raw)) (some secret) now
        = .err (AppError.new UNAUTHORIZED m))
    ∧ (∀ claims s, s ≠ secret →
        ∃ m, from_request_parts (some (.signed claims s)) (some secret) now
          = .err (AppError.new UNAUTHORIZED m))
    ∧ (∀ claims : Claims, claims.exp < now - 60 →
        ∃ m, from_request_parts (some (.signed claims secret)) (some secret) now
          = .err (AppError.new UNAUTHORIZED m))
    ∧ (∀ claims : Claims, ¬ claims.exp < now - 60 →
        from_request_parts (some (.signed claims secret)) (some secret) now
          = .ok claims) := by
  refine ⟨rfl, fun raw => ⟨"Невалидный токен: " ++ "InvalidToken", rfl⟩,
    ?_, ?_, ?_⟩
  · intro claims s hs
    refine ⟨"Невалидный токен: " ++ "InvalidSignature", ?_⟩
    simp only [from_request_parts, jwtDecode]
    rw [if_neg hs]
  · intro claims hexp
    refine ⟨"Невалидный токен: " ++ "ExpiredSignature", ?_⟩
    simp only [from_request_parts, jwtDecode]
    rw [if_pos trivial, if_pos hexp]
  · intro claims hexp
    simp only [from_request_parts, jwtDecode]
    rw [if_pos trivial, if_neg hexp]

/-- Witness for C5 exercising each rejection class and the acceptance case
at concrete tokens. -/
theorem C5_witness :
    (∃ m, from_request_parts (some (.signed ⟨1000, 0, 1, .user⟩ "other"))
        (some "secret") 100 = .err (AppError.new UNAUTHORIZED m))
    ∧ (∃ m, from_request_parts (some (.signed ⟨30, 0, 1, .user⟩ "secret"))
        (some "secret") 100 = .err (AppError.new UNAUTHORIZED m))
    ∧ from_request_parts (some (.signed ⟨1000, 100, 1, .user⟩ "secret"))
        (some "secret") 100 = .ok ⟨1000, 100, 1, .user⟩ :=
  ⟨(C5_claims_extractor_rejection "secret" 100).2.2.1 ⟨1000, 0, 1, .user⟩
      "other" (by decide),
   (C5_claims_extractor_rejection "secret" 100).2.2.2.1 ⟨30, 0, 1, .user⟩
      (by decide),
   (C5_claims_extractor_rejection "secret" 100).2.2.2.2 ⟨1000, 100, 1, .user⟩
      (by decide)⟩

/-- C8: Login indistinguishability.  For every store, a login with a
nickname that matches no user and a login with an existing nickname but a
wrong password (against a well-formed stored hash) both produce the exact
same error value — status 401 with the one fixed message — and leave the
store unchanged, so the response does not distinguish the two cases. -/
theorem C8_login_indistinguishability (st : Store)
    (n₁ q n₂ p₂ salt stored : String) (user : User)
    (now now' : Int) (jwtSecret jwtSecret' : Option String)
    (freshToken freshToken' : String)
    (h₁ : findUserByNickname st n₁ = none)
    (h₂ : findUserByNickname st n₂ = some user)
    (hhash : user.password_hash = bcryptHash salt stored)
    (hwrong : p₂ ≠ stored) :
    login_handler ⟨n₁, q⟩ st now jwtSecret freshToken
      = (.err (AppError.new UNAUTHORIZED "Неверный никнейм или пароль"), st)
    ∧ login_handler ⟨n₂, p₂⟩ st now' jwtSecret' freshToken'
      = (.err (AppError.new UNAUTHORIZED "Неверный никнейм или пароль"), st) := by
  constructor
  · simp [login_handler, h₁]
  · simp only [login_handler, h₂, verify_password, hhash, bcryptVerify,
      bcryptHash]
    rw [if_neg]
    simp only [beq_iff_eq]
    exact fun h => hwrong h.symm

/-- Witness for C8: the unknown-nickname attempt and the wrong-password
attempt return the same error against a concrete store. -/
theorem C8_witness :
    login_handler ⟨"mallory", "whatever"⟩
        ⟨[⟨1, "alice", bcryptHash "somesalt" "pw123", .user⟩], []⟩
        0 (some "secret") "freshtok"
      = (.err (AppError.new UNAUTHORIZED "Неверный никнейм или пароль"),
         ⟨[⟨1, "alice", bcryptHash "somesalt" "pw123", .user⟩], []⟩)
    ∧ login_handler ⟨"alice", "wrongpw"⟩
        ⟨[⟨1, "alice", bcryptHash "somesalt" "pw123", .user⟩], []⟩
        0 (some "secret") "freshtok"
      = (.err (AppError.new UNAUTHORIZED "Неверный никнейм или пароль"),
         ⟨[⟨1, "alice", bcryptHash "somesalt" "pw123", .user⟩], []⟩) :=
  C8_login_indistinguishability
    ⟨[⟨1, "alice", bcryptHash "somesalt" "pw123", .user⟩], []⟩
    "mallory" "whatever" "alice" "wrongpw" "somesalt" "pw123"
    ⟨1, "alice", bcryptHash "somesalt" "pw123", .user⟩
    0 0 (some "secret") (some "secret") "freshtok" "freshtok"
    (by decide) (by decide) rfl (by decide)

/-- C10: Refresh is not atomic on issuance failure.  For a stored,
unexpired session whose owning user row is absent, `refresh_access_token`
returns the generic 500 internal error (from the sqlx `RowNotFound` →
`AppError` conversion), not Unauthorized, while the old session row has
already been deleted from the store — the refresh token is consumed even
though no new token pair is issued. -/
theorem C10_refresh_consumes_token_on_failure (tok : String) (st : Store)
    (session : Session) (now : Int) (jwtSecret : Option String)
    (freshToken : String)
    (hfind : findSession st tok = some session)
    (hlive : ¬ now > session.expires_at)
    (hnouser : findUserById st session.user_id = none) :
    refresh_access_token tok st now jwtSecret freshToken
      = (.err (AppError.new INTERNAL_SERVER_ERROR "Произошла ошибка на сервере"),
         deleteSession st tok)
    ∧ findSession (deleteSession st tok) tok = none
    ∧ INTERNAL_SERVER_ERROR ≠ UNAUTHORIZED := by
  refine ⟨?_, findSession_deleteSession st tok, by decide⟩
  unfold refresh_access_token
  rw [hfind]
  simp only
  rw [if_neg hlive]
  unfold generate_tokens
  rw [findUserById_deleteSession, hnouser]
  rfl

/-- Witness for C10: a live session owned by a user id with no user row. -/
theorem C10_witness :
    refresh_access_token "tok" ⟨[], [⟨7, "tok", 100⟩]⟩ 50 (some "secret")
        "freshtok"
      = (.err (AppError.new INTERNAL_SERVER_ERROR "Произошла ошибка на сервере"),
         ⟨[], []⟩)
    ∧ findSession (deleteSession ⟨[], [⟨7, "tok", 100⟩]⟩ "tok") "tok" = none
    ∧ INTERNAL_SERVER_ERROR ≠ UNAUTHORIZED :=
  C10_refresh_consumes_token_on_failure "tok" ⟨[], [⟨7, "tok", 100⟩]⟩
    ⟨7, "tok", 100⟩ 50 (some "secret") "freshtok"
    (by decide) (by decide) (by decide)

end Mandarin
